import Mathlib

/-!
# Verification of the health-pwa local persistence, statistics and text-extraction core

Shallow embedding of `src/app.js` (health-records PWA).

Modelling conventions:

* JavaScript numbers are modelled as exact rationals (`ℚ`).  Every numeric
  value that the claims mention (`6.4`, integer blood-pressure readings,
  sums, averages) is exactly representable, and IEEE doubles round-trip
  through storage unchanged, so the rational model is faithful for the
  properties stated here.
* `recordedAt` is an ISO-8601 timestamp string (`new Date().toISOString()`).
  IndexedDB compares string keys lexicographically by code unit; Lean's
  `String` linear order is the same order on these ASCII strings.
* The IndexedDB object stores `glucose` and `pressure` (created in `initDB`,
  `keyPath: 'id'`, `autoIncrement: true`, with a non-unique secondary index
  on `recordedAt`) are modelled as lists of records plus the auto-increment
  counter.  Per the IndexedDB specification, a non-unique index stores its
  entries sorted by (index key, primary key) ascending; an index cursor with
  direction `'next'` (the default) traverses that order, and a cursor with
  direction `'prev'` traverses it in reverse, i.e. descending (index key,
  primary key).  `getRecent` and `getFilteredRecords` below realise exactly
  those traversals over the record list.
-/

/-- `Math.round(x)` for a rational: nearest integer, ties toward `+∞`
(JavaScript `Math.round` is `⌊x + 1/2⌋`). -/
def jsRound (q : ℚ) : ℤ := ⌊q + 1 / 2⌋

/-- Numeric value of JavaScript `x.toFixed(1)`: `x` rounded to one decimal
place, ties picking the larger candidate (the ECMA-262 `toFixed` rule), i.e.
`⌊10x + 1/2⌋ / 10`.  The source stores the resulting decimal string in
`glucoseStats.average`; we model its numeric value. -/
def toFixed1 (q : ℚ) : ℚ := (⌊q * 10 + 1 / 2⌋ : ℚ) / 10

/-- A record of the `glucose` object store, as built by `saveGlucose`:
`{ value, unit: 'mmol/L', recordedAt, notes }` plus the store-assigned
auto-increment key `id` (keyPath `'id'`). -/
structure GlucoseRecord where
  id : Nat
  value : ℚ
  unit : String
  recordedAt : String
  notes : String
deriving DecidableEq

/-- A record of the `pressure` object store, as built by `savePressure`:
`{ systolic, diastolic, recordedAt, notes }` plus the store-assigned key. -/
structure PressureRecord where
  id : Nat
  systolic : ℚ
  diastolic : ℚ
  recordedAt : String
  notes : String
deriving DecidableEq

/-- The `HealthRecordsDB` database: the two object stores (as insertion-order
lists) and their auto-increment counters (IndexedDB key generators start
at 1 and never reuse keys). -/
structure Store where
  glucose : List GlucoseRecord
  pressure : List PressureRecord
  glucoseNextId : Nat
  pressureNextId : Nat
deriving DecidableEq

/-- `saveGlucose(value, notes)`: adds
`{ value, unit: 'mmol/L', recordedAt: now, notes }` to the `glucose` store
and resolves with the assigned key.  `now` stands for
`new Date().toISOString()` at the moment of the call.  No validation of
`value` is performed. -/
def saveGlucose (s : Store) (value : ℚ) (notes : String) (now : String) :
    Store × Nat :=
  let record : GlucoseRecord :=
    { id := s.glucoseNextId, value := value, unit := "mmol/L",
      recordedAt := now, notes := notes }
  ({ s with glucose := s.glucose ++ [record],
            glucoseNextId := s.glucoseNextId + 1 },
   s.glucoseNextId)

/-- `savePressure(systolic, diastolic, notes)`: adds
`{ systolic, diastolic, recordedAt: now, notes }` to the `pressure` store and
resolves with the assigned key. -/
def savePressure (s : Store) (systolic diastolic : ℚ) (notes : String)
    (now : String) : Store × Nat :=
  let record : PressureRecord :=
    { id := s.pressureNextId, systolic := systolic, diastolic := diastolic,
      recordedAt := now, notes := notes }
  ({ s with pressure := s.pressure ++ [record],
            pressureNextId := s.pressureNextId + 1 },
   s.pressureNextId)

/-- Traversal order of the non-unique `recordedAt` index: entry `a` comes
at-or-before entry `b` iff `a`'s index key is smaller, or the keys are equal
and `a`'s primary key (`id`) is at most `b`'s.  `key` extracts the indexed
field (`recordedAt`), `pk` the primary key (`id`). -/
def idxLE {α : Type} (key : α → String) (pk : α → Nat) (a b : α) : Prop :=
  key a < key b ∨ (key a = key b ∧ pk a ≤ pk b)

/-- Order of a `'prev'`-direction cursor over the `recordedAt` index: the
index traversal order reversed (`recordedAt` descending, ties by descending
`id`). -/
def recentLE {α : Type} (key : α → String) (pk : α → Nat) (a b : α) : Prop :=
  idxLE key pk b a

instance idxLE.decidableRel {α : Type} (key : α → String) (pk : α → Nat) :
    DecidableRel (idxLE key pk) := fun a b =>
  inferInstanceAs (Decidable (key a < key b ∨ (key a = key b ∧ pk a ≤ pk b)))

instance recentLE.decidableRel {α : Type} (key : α → String) (pk : α → Nat) :
    DecidableRel (recentLE key pk) := fun a b =>
  inferInstanceAs (Decidable (idxLE key pk b a))

theorem idxLE_total {α : Type} (key : α → String) (pk : α → Nat) (a b : α) :
    idxLE key pk a b ∨ idxLE key pk b a := by
  rcases lt_trichotomy (key a) (key b) with h | h | h
  · exact Or.inl (Or.inl h)
  · rcases Nat.le_total (pk a) (pk b) with h' | h'
    · exact Or.inl (Or.inr ⟨h, h'⟩)
    · exact Or.inr (Or.inr ⟨h.symm, h'⟩)
  · exact Or.inr (Or.inl h)

theorem idxLE_trans {α : Type} (key : α → String) (pk : α → Nat) {a b c : α}
    (hab : idxLE key pk a b) (hbc : idxLE key pk b c) : idxLE key pk a c := by
  rcases hab with h1 | ⟨h1, h1'⟩ <;> rcases hbc with h2 | ⟨h2, h2'⟩
  · exact Or.inl (lt_trans h1 h2)
  · exact Or.inl (h2 ▸ h1)
  · exact Or.inl (h1 ▸ h2)
  · exact Or.inr ⟨h1.trans h2, h1'.trans h2'⟩

instance idxLE.isTotal {α : Type} (key : α → String) (pk : α → Nat) :
    IsTotal α (idxLE key pk) := ⟨idxLE_total key pk⟩

instance idxLE.isTrans {α : Type} (key : α → String) (pk : α → Nat) :
    IsTrans α (idxLE key pk) := ⟨fun _ _ _ => idxLE_trans key pk⟩

instance recentLE.isTotal {α : Type} (key : α → String) (pk : α → Nat) :
    IsTotal α (recentLE key pk) := ⟨fun a b => (idxLE_total key pk a b).symm⟩

instance recentLE.isTrans {α : Type} (key : α → String) (pk : α → Nat) :
    IsTrans α (recentLE key pk) :=
  ⟨fun _ _ _ hab hbc => idxLE_trans key pk hbc hab⟩

/-- `getRecent(storeName, limit)`: opens a `'prev'`-direction cursor on the
`recordedAt` index (`index.openCursor(null, 'prev')`) and collects cursor
values while `results.length < limit`.  The cursor yields the records in
descending (`recordedAt`, `id`) order, so the result is the first `limit`
elements of the records sorted by `recentLE`. -/
def getRecent {α : Type} (key : α → String) (pk : α → Nat)
    (records : List α) (limit : Nat) : List α :=
  (List.insertionSort (recentLE key pk) records).take limit

/-- `getFilteredRecords(storeName, cutoffISO)`: opens a forward cursor on the
`recordedAt` index restricted to `IDBKeyRange.lowerBound(cutoffISO)` and
collects every value.  The cursor yields, in ascending (`recordedAt`, `id`)
order, exactly the records with `recordedAt >= cutoffISO` (the lower bound
is inclusive). -/
def getFilteredRecords {α : Type} (key : α → String) (pk : α → Nat)
    (records : List α) (cutoffISO : String) : List α :=
  (List.insertionSort (idxLE key pk) records).filter
    (fun r => decide (cutoffISO ≤ key r))

/-- The `glucoseStats` object of `getStats`.  In the source `average` is the
string produced by `toFixed(1)`; we model its numeric value (`none` = null). -/
structure GlucoseStats where
  count : Nat
  average : Option ℚ
  min : Option ℚ
  max : Option ℚ
deriving DecidableEq

/-- The `pressureStats` object of `getStats` (`none` = null). -/
structure PressureStats where
  count : Nat
  avgSystolic : Option ℤ
  avgDiastolic : Option ℤ
  minSystolic : Option ℚ
  maxSystolic : Option ℚ
  minDiastolic : Option ℚ
  maxDiastolic : Option ℚ
deriving DecidableEq

/-- Result shape of `getStats`. -/
structure Stats where
  glucose : GlucoseStats
  pressure : PressureStats
deriving DecidableEq

/-- The glucose half of `getStats`: fields start as
`{ count: records.length, average: null, min: null, max: null }` and are
filled in only `if (glucoseRecords.length > 0)`.  `average` is
`(values.reduce((a,b) => a+b, 0) / values.length).toFixed(1)`; `min`/`max`
are `Math.min(...values)` / `Math.max(...values)` (folds over the values,
no rounding). -/
def glucoseStatsOf (glucoseRecords : List GlucoseRecord) : GlucoseStats :=
  match glucoseRecords with
  | [] => { count := 0, average := none, min := none, max := none }
  | r :: rs =>
    let values := (r :: rs).map (·.value)
    { count := (r :: rs).length
      average := some (toFixed1 (values.foldl (· + ·) 0 / (values.length : ℚ)))
      min := some ((rs.map (·.value)).foldl min r.value)
      max := some ((rs.map (·.value)).foldl max r.value) }

/-- The pressure half of `getStats`: averages use `Math.round`, `min`/`max`
are unrounded folds over the stored values. -/
def pressureStatsOf (pressureRecords : List PressureRecord) : PressureStats :=
  match pressureRecords with
  | [] =>
    { count := 0, avgSystolic := none, avgDiastolic := none,
      minSystolic := none, maxSystolic := none,
      minDiastolic := none, maxDiastolic := none }
  | r :: rs =>
    let systolics := (r :: rs).map (·.systolic)
    let diastolics := (r :: rs).map (·.diastolic)
    { count := (r :: rs).length
      avgSystolic :=
        some (jsRound (systolics.foldl (· + ·) 0 / (systolics.length : ℚ)))
      avgDiastolic :=
        some (jsRound (diastolics.foldl (· + ·) 0 / (diastolics.length : ℚ)))
      minSystolic := some ((rs.map (·.systolic)).foldl min r.systolic)
      maxSystolic := some ((rs.map (·.systolic)).foldl max r.systolic)
      minDiastolic := some ((rs.map (·.diastolic)).foldl min r.diastolic)
      maxDiastolic := some ((rs.map (·.diastolic)).foldl max r.diastolic) }

/-- `getStats(days)` retrieves `getFilteredRecords` for both collections
(with `cutoffISO` obtained from `days` by calendar-day subtraction on the
current date — the `Date` arithmetic is outside the store model, so the
cutoff string is a parameter here) and aggregates each independently. -/
def getStats (s : Store) (cutoffISO : String) : Stats :=
  { glucose := glucoseStatsOf
      (getFilteredRecords GlucoseRecord.recordedAt GlucoseRecord.id
        s.glucose cutoffISO)
    pressure := pressureStatsOf
      (getFilteredRecords PressureRecord.recordedAt PressureRecord.id
        s.pressure cutoffISO) }

/-!
## Text extractor (`parseHealthText`)

The source matches two regular expressions against the transcript:

* glucose: `/血糖[：:\s]*([0-9]+(?:\.[0-9]+)?)/`
* pressure: `/血压[：:\s]*([0-9]{2,3})[^\d]{1,3}([0-9]{2,3})/`

`String.prototype.match` without the `g` flag returns the leftmost match:
the engine attempts the pattern at each starting position from the left and
the first successful attempt wins.  At a fixed starting position the usual
greedy-backtracking semantics collapses to maximal-munch here:

* `[：:\s]*` is followed by a digit class, and no separator character is a
  digit, so yielding back separator characters can never help: the
  quantifier consumes the maximal separator run.
* `[0-9]{2,3}` (first pressure group) is followed by `[^\d]{1,3}`.  Let `k`
  be the length of the maximal digit run at that point.  If `k ≥ 4`, both
  the 3-digit and the 2-digit alternative leave a digit in front of
  `[^\d]`, so the attempt fails.  If `k = 3` only the 3-digit alternative
  survives (the 2-digit one leaves a digit), and if `k = 2` only the
  2-digit one; in both cases the group is exactly the maximal run.  `k ≤ 1`
  fails.
* `[^\d]{1,3}` is followed by a digit class; yielding back non-digit
  characters leaves a non-digit in front of `[0-9]`, so the quantifier must
  consume the whole maximal non-digit run, which must have length 1–3.
* The final `([0-9]{2,3})` has nothing after it, so greedy matching takes
  `min 3 k'` digits of the maximal digit run of length `k'`, requiring
  `k' ≥ 2`.
* In the glucose pattern, `[0-9]+` is followed by the optional `(?:\.[0-9]+)?`
  whose first character `\.` is not a digit, so `[0-9]+` consumes the
  maximal digit run; the optional group matches iff the next character is
  `'.'` followed by at least one digit, and then consumes the maximal digit
  run after the dot.

JavaScript scans UTF-16 code units while Lean scans code points, but every
character of both patterns is a BMP non-surrogate, so no match can start
inside a surrogate pair and the two scans agree.
-/

/-- The JavaScript `\s` class (ECMA-262 WhiteSpace ∪ LineTerminator). -/
def isJsSpace (c : Char) : Bool :=
  c = '\t' || c = '\n' || c = '\x0b' || c = '\x0c' || c = '\r' || c = ' ' ||
  c = ' ' || c = ' ' || (' ' ≤ c && c ≤ ' ') ||
  c = ' ' || c = ' ' || c = ' ' || c = ' ' ||
  c = '　' || c = '﻿'

/-- The separator class `[：:\s]` of both patterns. -/
def isSepChar (c : Char) : Bool :=
  c = '：' || c = ':' || isJsSpace c

/-- Decimal value of a digit run, as computed by `parseInt` (base 10). -/
def digitsVal (ds : List Char) : Nat :=
  ds.foldl (fun n c => 10 * n + (c.toNat - '0'.toNat)) 0

/-- `parseFloat` on a captured string `ds "." fs` (or just `ds` when `fs` is
empty): exact decimal value. -/
def ratOfParts (ds fs : List Char) : ℚ :=
  (digitsVal ds : ℚ) + (digitsVal fs : ℚ) / (10 : ℚ) ^ fs.length

/-- One attempt of the glucose pattern anchored at the head of `cs`
(see the maximal-munch analysis above): `血糖`, maximal separator run,
a non-empty digit run, optionally `'.'` and a further non-empty digit run.
Returns `parseFloat` of the captured number. -/
def sugarTryAt (cs : List Char) : Option ℚ :=
  match cs with
  | '血' :: '糖' :: rest =>
    let rest1 := rest.dropWhile isSepChar
    let ds := rest1.takeWhile Char.isDigit
    if ds.length = 0 then none
    else
      match rest1.drop ds.length with
      | '.' :: rest3 =>
        let fs := rest3.takeWhile Char.isDigit
        if fs.length = 0 then some (ratOfParts ds [])
        else some (ratOfParts ds fs)
      | _ => some (ratOfParts ds [])
  | _ => none

/-- Leftmost match of the glucose pattern: try each start position from the
left, first success wins (`text.match(...)` without `g`). -/
def sugarScan : List Char → Option ℚ
  | [] => none
  | c :: cs =>
    match sugarTryAt (c :: cs) with
    | some v => some v
    | none => sugarScan cs

/-- One attempt of the pressure pattern anchored at the head of `cs`:
`血压`, maximal separator run, a maximal digit run of length 2 or 3
(systolic capture), a maximal non-digit run of length 1–3, then at least two
digits (diastolic capture = first `min 3` digits of the maximal run).
Returns `parseInt` of the two captures. -/
def bpTryAt (cs : List Char) : Option (Nat × Nat) :=
  match cs with
  | '血' :: '压' :: rest =>
    let rest1 := rest.dropWhile isSepChar
    let ds := rest1.takeWhile Char.isDigit
    if ds.length = 2 ∨ ds.length = 3 then
      let rest2 := rest1.drop ds.length
      let ns := rest2.takeWhile (fun c => !c.isDigit)
      if 1 ≤ ns.length ∧ ns.length ≤ 3 then
        let ds2 := (rest2.drop ns.length).takeWhile Char.isDigit
        if 2 ≤ ds2.length then
          some (digitsVal ds, digitsVal (ds2.take 3))
        else none
      else none
    else none
  | _ => none

/-- Leftmost match of the pressure pattern. -/
def bpScan : List Char → Option (Nat × Nat)
  | [] => none
  | c :: cs =>
    match bpTryAt (c :: cs) with
    | some v => some v
    | none => bpScan cs

/-- The result object of `parseHealthText` (`none` = field absent). -/
structure ParseResult where
  bloodSugar : Option ℚ
  systolic : Option Nat
  diastolic : Option Nat
deriving DecidableEq

/-- `parseHealthText(text)`: starts from `{}`; if the glucose pattern
matches, sets `result.bloodSugar = parseFloat(m[1])`; if the pressure
pattern matches and `60 <= sys <= 250 && 40 <= dia <= 150`, sets
`result.systolic`/`result.diastolic` (both or neither); otherwise the
pressure match is discarded. -/
def parseHealthText (text : String) : ParseResult :=
  let r0 : ParseResult := { bloodSugar := none, systolic := none, diastolic := none }
  let r1 :=
    match sugarScan text.data with
    | some v => { r0 with bloodSugar := some v }
    | none => r0
  match bpScan text.data with
  | some (sys, dia) =>
    if 60 ≤ sys ∧ sys ≤ 250 ∧ 40 ≤ dia ∧ dia ≤ 150 then
      { r1 with systolic := some sys, diastolic := some dia }
    else r1
  | none => r1

/-- Concrete pressure record at the cutoff timestamp (C4 witness). -/
def pAtCutoff : PressureRecord :=
  { id := 1, systolic := 120, diastolic := 80, recordedAt := "b", notes := "" }

/-- Concrete pressure record older than the cutoff (C4 witness). -/
def pOlder : PressureRecord :=
  { id := 2, systolic := 130, diastolic := 85, recordedAt := "a", notes := "" }

/-- Concrete one-record-per-collection store for the C7 witness. -/
def demoStore : Store :=
  { glucose := [{ id := 1, value := 32 / 5, unit := "mmol/L",
                  recordedAt := "t", notes := "" }],
    pressure := [{ id := 1, systolic := 130, diastolic := 85,
                   recordedAt := "t", notes := "" }],
    glucoseNextId := 2, pressureNextId := 2 }

example : parseHealthText "血压300 90" =
    { bloodSugar := none, systolic := none, diastolic := none } := by decide
example : parseHealthText "血压130 85" =
    { bloodSugar := none, systolic := some 130, diastolic := some 85 } := by decide
example : parseHealthText "血糖6.4，血压130 85" =
    { bloodSugar := some (ratOfParts ['6'] ['4']), systolic := some 130,
      diastolic := some 85 } := rfl
example : ratOfParts ['6'] ['4'] = 32 / 5 := by
  rw [ratOfParts, show digitsVal ['6'] = 6 from by decide,
    show digitsVal ['4'] = 4 from by decide]
  norm_num
example : bpScan "血压300 90，血压130 85".data = some (300, 90) := by decide
example : sugarScan "血糖：7".data = some (ratOfParts ['7'] []) := rfl
example : sugarScan "今天血糖 6".data = some (ratOfParts ['6'] []) := rfl
example : bpScan "血压130/80".data = some (130, 80) := by decide
example : bpScan "血压1234 85".data = none := by decide

/-!
## Helper lemmas
-/

theorem foldl_min_mem {β : Type} [LinearOrder β] (xs : List β) (x : β) :
    xs.foldl min x ∈ x :: xs := by
  induction xs generalizing x with
  | nil => simp
  | cons y ys ih =>
    have h := ih (min x y)
    rcases min_choice x y with h' | h' <;>
      · rw [List.foldl_cons]
        rcases List.mem_cons.mp h with h'' | h'' <;>
          simp [h', h''] at * <;> simp_all

theorem foldl_min_le {β : Type} [LinearOrder β] (xs : List β) (x : β) :
    ∀ y ∈ x :: xs, xs.foldl min x ≤ y := by
  induction xs generalizing x with
  | nil => intro y hy; rcases List.mem_singleton.mp hy with rfl; rfl
  | cons z zs ih =>
    intro y hy
    rw [List.foldl_cons]
    rcases List.mem_cons.mp hy with rfl | hy'
    · exact le_trans (ih (min y z) (min y z) (List.mem_cons_self _ _)) (min_le_left _ _)
    · rcases List.mem_cons.mp hy' with rfl | hy'' 
      · exact le_trans (ih (min x y) (min x y) (List.mem_cons_self _ _)) (min_le_right _ _)
      · exact ih (min x z) y (List.mem_cons_of_mem _ hy'')

theorem foldl_max_mem {β : Type} [LinearOrder β] (xs : List β) (x : β) :
    xs.foldl max x ∈ x :: xs := by
  induction xs generalizing x with
  | nil => simp
  | cons y ys ih =>
    have h := ih (max x y)
    rcases max_choice x y with h' | h' <;>
      · rw [List.foldl_cons]
        rcases List.mem_cons.mp h with h'' | h'' <;>
          simp [h', h''] at * <;> simp_all

theorem foldl_max_le {β : Type} [LinearOrder β] (xs : List β) (x : β) :
    ∀ y ∈ x :: xs, y ≤ xs.foldl max x := by
  induction xs generalizing x with
  | nil => intro y hy; rcases List.mem_singleton.mp hy with rfl; rfl
  | cons z zs ih =>
    intro y hy
    rw [List.foldl_cons]
    rcases List.mem_cons.mp hy with rfl | hy'
    · exact le_trans (le_max_left _ _) (ih (max y z) (max y z) (List.mem_cons_self _ _))
    · rcases List.mem_cons.mp hy' with rfl | hy''
      · exact le_trans (le_max_right _ _) (ih (max x y) (max x y) (List.mem_cons_self _ _))
      · exact ih (max x z) y (List.mem_cons_of_mem _ hy'')

/-- In a list sorted by `r`, an element that no distinct member of the list
precedes is the head; `take 1` returns exactly it. -/
theorem sorted_take_one {α : Type} {r : α → α → Prop} {l : List α} {a : α}
    (hs : List.Sorted r l) (ha : a ∈ l)
    (hmax : ∀ b ∈ l, b ≠ a → ¬ r b a) : l.take 1 = [a] := by
  cases l with
  | nil => cases ha
  | cons h t =>
    by_cases hha : h = a
    · simp [hha]
    · rcases List.mem_cons.mp ha with rfl | hat
      · exact absurd rfl hha
      · exact absurd (List.rel_of_sorted_cons hs a hat)
          (hmax h (List.mem_cons_self _ _) hha)

/-!
## Claims
-/

/-- C1: for every collection (the theorem is generic in the record type and
applies to both `glucose` and `pressure`) and every limit, `getRecent`
returns at most `limit` records, ordered by `recordedAt` descending with
ties broken by descending `id` (the `'prev'`-cursor order `recentLE`), and
returns the empty sequence — not an error — when the collection has no
records. -/
theorem c1_getRecent_ordered {α : Type} (key : α → String) (pk : α → Nat)
    (records : List α) (limit : Nat) :
    (getRecent key pk records limit).length ≤ limit ∧
    List.Sorted (recentLE key pk) (getRecent key pk records limit) ∧
    getRecent key pk ([] : List α) limit = [] :=
  ⟨List.length_take_le limit _,
   (List.sorted_insertionSort (recentLE key pk) records).sublist
     (List.take_sublist limit _),
   by simp [getRecent]⟩

/-- C4: `getFilteredRecords` returns exactly the records with
`recordedAt ≥ cutoffISO` (inclusive lower bound: a record whose key equals
the cutoff is a member, an older one is not), ordered ascending by
`recordedAt`, and returns `[]` rather than failing when nothing matches. -/
theorem c4_getFilteredRecords_window {α : Type} (key : α → String)
    (pk : α → Nat) (records : List α) (cutoffISO : String) :
    (∀ r, r ∈ getFilteredRecords key pk records cutoffISO ↔
        r ∈ records ∧ cutoffISO ≤ key r) ∧
    List.Sorted (fun a b => key a ≤ key b)
      (getFilteredRecords key pk records cutoffISO) ∧
    ((∀ r ∈ records, ¬ cutoffISO ≤ key r) →
        getFilteredRecords key pk records cutoffISO = []) := by
  refine ⟨fun r => ?_, ?_, fun h => ?_⟩
  · simp [getFilteredRecords, List.mem_filter]
  · exact ((List.sorted_insertionSort (idxLE key pk) records).filter _).imp
      (fun hab => hab.elim le_of_lt (fun h' => le_of_eq h'.1))
  · rw [getFilteredRecords, List.filter_eq_nil_iff]
    intro r hr
    simpa using h r ((List.mem_insertionSort _).mp hr)

/-- C4 (witness): with cutoff `"b"`, a record stamped exactly `"b"` is kept
(inclusive bound) and a collection holding only an older record (`"a"`)
yields `[]`. -/
theorem c4_witness :
    (pAtCutoff ∈ getFilteredRecords PressureRecord.recordedAt
        PressureRecord.id [pAtCutoff, pOlder] "b" ↔
      pAtCutoff ∈ [pAtCutoff, pOlder] ∧ ("b" : String) ≤ pAtCutoff.recordedAt) ∧
    getFilteredRecords PressureRecord.recordedAt PressureRecord.id
      [pOlder] "b" = [] :=
  ⟨(c4_getFilteredRecords_window PressureRecord.recordedAt PressureRecord.id
      [pAtCutoff, pOlder] "b").1 pAtCutoff,
   (c4_getFilteredRecords_window PressureRecord.recordedAt PressureRecord.id
      [pOlder] "b").2.2 (by
        intro r hr
        rcases List.mem_singleton.mp hr with rfl
        show ¬ ("b" : String) ≤ "a"
        simp
        decide)⟩

/-- C6 (counterexample): the claim — in `recordedAt`-descending retrieval,
records with identical timestamps appear in insertion order, i.e. ascending
store-assigned `id` — is false: with two records sharing `recordedAt = "t"`
and ids 1 (inserted first) and 2, `getRecent` returns ids `[2, 1]`, because
a `'prev'` index cursor traverses equal-key entries by *descending* primary
key. -/
theorem c6_counterexample :
    ¬ (∀ (records : List GlucoseRecord) (limit : Nat),
        List.Pairwise (fun a b => a.recordedAt = b.recordedAt → a.id ≤ b.id)
          (getRecent GlucoseRecord.recordedAt GlucoseRecord.id
            records limit)) := by
  intro h
  have h2 := h
    [{ id := 1, value := 5, unit := "mmol/L", recordedAt := "t", notes := "" },
     { id := 2, value := 5, unit := "mmol/L", recordedAt := "t", notes := "" }] 2
  have hres : getRecent GlucoseRecord.recordedAt GlucoseRecord.id
      [{ id := 1, value := 5, unit := "mmol/L", recordedAt := "t", notes := "" },
       { id := 2, value := 5, unit := "mmol/L", recordedAt := "t", notes := "" }] 2 =
      [{ id := 2, value := 5, unit := "mmol/L", recordedAt := "t", notes := "" },
       { id := 1, value := 5, unit := "mmol/L", recordedAt := "t", notes := "" }] := by
    simp [getRecent, recentLE, idxLE]
  rw [hres] at h2
  have h3 := List.rel_of_pairwise_cons h2 (List.mem_singleton.mpr rfl)
  exact absurd (h3 rfl) (by decide)

/-- C6 (amended): within a collection, retrieval by `recordedAt` descending
is a total order in which records with identical `recordedAt` appear in
*reverse* insertion order — store-assigned `id` *descending* as tiebreak
(assuming, as the store guarantees, that ids are distinct). -/
theorem c6_amended_tiebreak_desc {α : Type} (key : α → String)
    (pk : α → Nat) (records : List α) (limit : Nat)
    (hids : (records.map pk).Nodup) :
    List.Pairwise (fun a b => key a = key b → pk b < pk a)
      (getRecent key pk records limit) := by
  have hsorted : List.Pairwise (recentLE key pk)
      (getRecent key pk records limit) :=
    (List.sorted_insertionSort (recentLE key pk) records).sublist
      (List.take_sublist limit _)
  have hnodup : (((List.insertionSort (recentLE key pk) records).take
      limit).map pk).Nodup := by
    rw [List.map_take]
    refine List.Nodup.sublist (List.take_sublist _ _) ?_
    exact ((List.perm_insertionSort (recentLE key pk) records).map pk).nodup_iff.mpr
      hids
  have hne : List.Pairwise (fun a b => pk a ≠ pk b)
      (getRecent key pk records limit) := by
    rw [getRecent]
    exact List.pairwise_map.mp hnodup
  refine (hsorted.and hne).imp ?_
  rintro a b ⟨hab, hne'⟩ hkey
  rcases hab with h | ⟨h1, h2⟩
  · exact absurd h (by rw [hkey]; exact lt_irrefl _)
  · exact lt_of_le_of_ne h2 (Ne.symm hne')

/-- C6 (amended, witness): two same-timestamp records with ids 1 and 2 come
back with the strictly larger id first. -/
theorem c6_amended_witness :
    List.Pairwise (fun a b : GlucoseRecord =>
        a.recordedAt = b.recordedAt → b.id < a.id)
      (getRecent GlucoseRecord.recordedAt GlucoseRecord.id
        [{ id := 1, value := 5, unit := "mmol/L", recordedAt := "t", notes := "" },
         { id := 2, value := 5, unit := "mmol/L", recordedAt := "t", notes := "" }] 2) :=
  c6_amended_tiebreak_desc GlucoseRecord.recordedAt GlucoseRecord.id _ 2
    (by decide)

/-- C3: when `getStats` finds zero matching records in a collection, that
collection's statistics have `count = 0` and every aggregate field `null`
(`none`) — never `NaN` (unrepresentable in the model) and never `0`. -/
theorem c3_getStats_empty (s : Store) (cutoffISO : String) :
    ((getStats s cutoffISO).glucose.count = 0 →
      (getStats s cutoffISO).glucose =
        { count := 0, average := none, min := none, max := none }) ∧
    ((getStats s cutoffISO).pressure.count = 0 →
      (getStats s cutoffISO).pressure =
        { count := 0, avgSystolic := none, avgDiastolic := none,
          minSystolic := none, maxSystolic := none,
          minDiastolic := none, maxDiastolic := none }) := by
  constructor
  · intro h
    rcases hgl : getFilteredRecords GlucoseRecord.recordedAt GlucoseRecord.id
        s.glucose cutoffISO with _ | ⟨r, rs⟩
    · rw [getStats, hgl]; rfl
    · rw [getStats, hgl] at h; simp [glucoseStatsOf] at h
  · intro h
    rcases hpr : getFilteredRecords PressureRecord.recordedAt PressureRecord.id
        s.pressure cutoffISO with _ | ⟨r, rs⟩
    · rw [getStats, hpr]; rfl
    · rw [getStats, hpr] at h; simp [pressureStatsOf] at h

/-- C3 (witness): the empty store has empty windows for any cutoff, and both
statistics objects are all-`null` with `count = 0`. -/
theorem c3_witness :
    (getStats { glucose := [], pressure := [], glucoseNextId := 1,
                pressureNextId := 1 } "t").glucose =
      { count := 0, average := none, min := none, max := none } ∧
    (getStats { glucose := [], pressure := [], glucoseNextId := 1,
                pressureNextId := 1 } "t").pressure =
      { count := 0, avgSystolic := none, avgDiastolic := none,
        minSystolic := none, maxSystolic := none,
        minDiastolic := none, maxDiastolic := none } :=
  ⟨(c3_getStats_empty _ "t").1 rfl, (c3_getStats_empty _ "t").2 rfl⟩

/-- Minimum characterisation of the `Math.min(...)` fold (used by C7). -/
theorem minFold_spec {β : Type} [LinearOrder β] (x : β) (xs : List β) :
    xs.foldl min x ∈ x :: xs ∧ ∀ y ∈ x :: xs, xs.foldl min x ≤ y :=
  ⟨foldl_min_mem xs x, foldl_min_le xs x⟩

/-- Maximum characterisation of the `Math.max(...)` fold (used by C7). -/
theorem maxFold_spec {β : Type} [LinearOrder β] (x : β) (xs : List β) :
    xs.foldl max x ∈ x :: xs ∧ ∀ y ∈ x :: xs, y ≤ xs.foldl max x :=
  ⟨foldl_max_mem xs x, foldl_max_le xs x⟩

/-- C7: on a non-empty filtered record set, `getStats` returns the glucose
average as the sum of the values divided by their count rounded to one
decimal place, the pressure averages rounded to the nearest integer, and
the min/max fields as the exact unrounded minimum and maximum of the stored
values (an element of the value list bounding every element; rounding is
applied only to averages). -/
theorem c7_getStats_rounding (s : Store) (cutoffISO : String)
    (hg : getFilteredRecords GlucoseRecord.recordedAt GlucoseRecord.id
        s.glucose cutoffISO ≠ [])
    (hp : getFilteredRecords PressureRecord.recordedAt PressureRecord.id
        s.pressure cutoffISO ≠ []) :
    ((getStats s cutoffISO).glucose.average =
      some (toFixed1
        (((getFilteredRecords GlucoseRecord.recordedAt GlucoseRecord.id
            s.glucose cutoffISO).map (·.value)).foldl (· + ·) 0 /
          (((getFilteredRecords GlucoseRecord.recordedAt GlucoseRecord.id
            s.glucose cutoffISO).map (·.value)).length : ℚ))) ∧
     (∃ m, (getStats s cutoffISO).glucose.min = some m ∧
        m ∈ (getFilteredRecords GlucoseRecord.recordedAt GlucoseRecord.id
            s.glucose cutoffISO).map (·.value) ∧
        ∀ v ∈ (getFilteredRecords GlucoseRecord.recordedAt GlucoseRecord.id
            s.glucose cutoffISO).map (·.value), m ≤ v) ∧
     (∃ M, (getStats s cutoffISO).glucose.max = some M ∧
        M ∈ (getFilteredRecords GlucoseRecord.recordedAt GlucoseRecord.id
            s.glucose cutoffISO).map (·.value) ∧
        ∀ v ∈ (getFilteredRecords GlucoseRecord.recordedAt GlucoseRecord.id
            s.glucose cutoffISO).map (·.value), v ≤ M)) ∧
    ((getStats s cutoffISO).pressure.avgSystolic =
      some (jsRound
        (((getFilteredRecords PressureRecord.recordedAt PressureRecord.id
            s.pressure cutoffISO).map (·.systolic)).foldl (· + ·) 0 /
          (((getFilteredRecords PressureRecord.recordedAt PressureRecord.id
            s.pressure cutoffISO).map (·.systolic)).length : ℚ))) ∧
     (getStats s cutoffISO).pressure.avgDiastolic =
      some (jsRound
        (((getFilteredRecords PressureRecord.recordedAt PressureRecord.id
            s.pressure cutoffISO).map (·.diastolic)).foldl (· + ·) 0 /
          (((getFilteredRecords PressureRecord.recordedAt PressureRecord.id
            s.pressure cutoffISO).map (·.diastolic)).length : ℚ))) ∧
     (∃ m, (getStats s cutoffISO).pressure.minSystolic = some m ∧
        m ∈ (getFilteredRecords PressureRecord.recordedAt PressureRecord.id
            s.pressure cutoffISO).map (·.systolic) ∧
        ∀ v ∈ (getFilteredRecords PressureRecord.recordedAt PressureRecord.id
            s.pressure cutoffISO).map (·.systolic), m ≤ v) ∧
     (∃ M, (getStats s cutoffISO).pressure.maxSystolic = some M ∧
        M ∈ (getFilteredRecords PressureRecord.recordedAt PressureRecord.id
            s.pressure cutoffISO).map (·.systolic) ∧
        ∀ v ∈ (getFilteredRecords PressureRecord.recordedAt PressureRecord.id
            s.pressure cutoffISO).map (·.systolic), v ≤ M) ∧
     (∃ m, (getStats s cutoffISO).pressure.minDiastolic = some m ∧
        m ∈ (getFilteredRecords PressureRecord.recordedAt PressureRecord.id
            s.pressure cutoffISO).map (·.diastolic) ∧
        ∀ v ∈ (getFilteredRecords PressureRecord.recordedAt PressureRecord.id
            s.pressure cutoffISO).map (·.diastolic), m ≤ v) ∧
     (∃ M, (getStats s cutoffISO).pressure.maxDiastolic = some M ∧
        M ∈ (getFilteredRecords PressureRecord.recordedAt PressureRecord.id
            s.pressure cutoffISO).map (·.diastolic) ∧
        ∀ v ∈ (getFilteredRecords PressureRecord.recordedAt PressureRecord.id
            s.pressure cutoffISO).map (·.diastolic), v ≤ M)) := by
  obtain ⟨r, rs, hgr⟩ : ∃ r rs,
      getFilteredRecords GlucoseRecord.recordedAt GlucoseRecord.id
        s.glucose cutoffISO = r :: rs := by
    rcases h : getFilteredRecords GlucoseRecord.recordedAt GlucoseRecord.id
        s.glucose cutoffISO with _ | ⟨r, rs⟩
    · exact absurd h hg
    · exact ⟨r, rs, rfl⟩
  obtain ⟨p, ps, hpr⟩ : ∃ p ps,
      getFilteredRecords PressureRecord.recordedAt PressureRecord.id
        s.pressure cutoffISO = p :: ps := by
    rcases h : getFilteredRecords PressureRecord.recordedAt PressureRecord.id
        s.pressure cutoffISO with _ | ⟨p, ps⟩
    · exact absurd h hp
    · exact ⟨p, ps, rfl⟩
  rw [getStats, hgr, hpr]
  refine ⟨⟨rfl, ?_, ?_⟩, rfl, rfl, ?_, ?_, ?_, ?_⟩
  · refine ⟨_, rfl, ?_, ?_⟩
    · simpa using (minFold_spec r.value (rs.map (·.value))).1
    · simpa using (minFold_spec r.value (rs.map (·.value))).2
  · refine ⟨_, rfl, ?_, ?_⟩
    · simpa using (maxFold_spec r.value (rs.map (·.value))).1
    · simpa using (maxFold_spec r.value (rs.map (·.value))).2
  · refine ⟨_, rfl, ?_, ?_⟩
    · simpa using (minFold_spec p.systolic (ps.map (·.systolic))).1
    · simpa using (minFold_spec p.systolic (ps.map (·.systolic))).2
  · refine ⟨_, rfl, ?_, ?_⟩
    · simpa using (maxFold_spec p.systolic (ps.map (·.systolic))).1
    · simpa using (maxFold_spec p.systolic (ps.map (·.systolic))).2
  · refine ⟨_, rfl, ?_, ?_⟩
    · simpa using (minFold_spec p.diastolic (ps.map (·.diastolic))).1
    · simpa using (minFold_spec p.diastolic (ps.map (·.diastolic))).2
  · refine ⟨_, rfl, ?_, ?_⟩
    · simpa using (maxFold_spec p.diastolic (ps.map (·.diastolic))).1
    · simpa using (maxFold_spec p.diastolic (ps.map (·.diastolic))).2

/-- C8: saving a glucose reading and then fetching the most recent 1 glucose
record returns exactly the saved record — `value` equal to the saved value
(no range validation: any `v`, including `v ≤ 0`) and `unit = "mmol/L"`.
The hypotheses state the store invariants at the moment of the save: no
stored record is stamped after `now` (timestamps reflect insertion time)
and every stored id is below the auto-increment counter. -/
theorem c8_roundtrip (s : Store) (v : ℚ) (notes : String) (now : String)
    (hts : ∀ r ∈ s.glucose, r.recordedAt ≤ now)
    (hid : ∀ r ∈ s.glucose, r.id < s.glucoseNextId) :
    getRecent GlucoseRecord.recordedAt GlucoseRecord.id
      (saveGlucose s v notes now).1.glucose 1 =
      [{ id := s.glucoseNextId, value := v, unit := "mmol/L",
         recordedAt := now, notes := notes }] ∧
    ({ id := s.glucoseNextId, value := v, unit := "mmol/L",
       recordedAt := now, notes := notes } : GlucoseRecord).value = v ∧
    ({ id := s.glucoseNextId, value := v, unit := "mmol/L",
       recordedAt := now, notes := notes } : GlucoseRecord).unit =
      "mmol/L" := by
  refine ⟨?_, rfl, rfl⟩
  have hglu : (saveGlucose s v notes now).1.glucose =
      s.glucose ++
        [{ id := s.glucoseNextId, value := v, unit := "mmol/L",
           recordedAt := now, notes := notes }] := rfl
  rw [getRecent, hglu]
  refine sorted_take_one
    (List.sorted_insertionSort _ _)
    ((List.mem_insertionSort _).mpr (by simp))
    ?_
  intro b hb hbne hrel
  have hbmem : b ∈ s.glucose ++
      [{ id := s.glucoseNextId, value := v, unit := "mmol/L",
         recordedAt := now, notes := notes }] :=
    (List.mem_insertionSort _).mp hb
  rcases List.mem_append.mp hbmem with hbg | hbnew
  · rcases hrel with hlt | ⟨heq, hle⟩
    · exact absurd hlt (not_lt.mpr (hts b hbg))
    · exact absurd hle (Nat.not_le.mpr (hid b hbg))
  · exact hbne (List.mem_singleton.mp hbnew)

/-- C8 (witness): on the fresh store, saving `6.4` and saving `-1` both
round-trip through `getRecent _ 1` unchanged, with `unit = "mmol/L"`. -/
theorem c8_witness :
    getRecent GlucoseRecord.recordedAt GlucoseRecord.id
      (saveGlucose { glucose := [], pressure := [], glucoseNextId := 1,
                     pressureNextId := 1 } (32 / 5) "n" "t").1.glucose 1 =
      [{ id := 1, value := 32 / 5, unit := "mmol/L", recordedAt := "t",
         notes := "n" }] ∧
    getRecent GlucoseRecord.recordedAt GlucoseRecord.id
      (saveGlucose { glucose := [], pressure := [], glucoseNextId := 1,
                     pressureNextId := 1 } (-1) "n" "t").1.glucose 1 =
      [{ id := 1, value := -1, unit := "mmol/L", recordedAt := "t",
         notes := "n" }] :=
  ⟨(c8_roundtrip _ (32 / 5) "n" "t" (by simp) (by simp)).1,
   (c8_roundtrip _ (-1) "n" "t" (by simp) (by simp)).1⟩

/-- The `bloodSugar` field of `parseHealthText` is exactly the glucose-scan
result, whatever the pressure scan does (helper for the parser claims). -/
theorem parse_bloodSugar_eq (t : String) :
    (parseHealthText t).bloodSugar = sugarScan t.data := by
  rcases hsc : sugarScan t.data with _ | v <;>
    rcases hbp : bpScan t.data with _ | ⟨sys, dia⟩ <;>
    simp only [parseHealthText, hsc, hbp] <;>
    split_ifs <;> rfl

/-- The `systolic` field of `parseHealthText` is exactly the bounds-filtered
first pressure match, whatever the glucose scan does. -/
theorem parse_systolic_eq (t : String) :
    (parseHealthText t).systolic =
      (match bpScan t.data with
       | some (sys, dia) =>
         if 60 ≤ sys ∧ sys ≤ 250 ∧ 40 ≤ dia ∧ dia ≤ 150 then some sys
         else none
       | none => none) := by
  rcases hsc : sugarScan t.data with _ | v <;>
    rcases hbp : bpScan t.data with _ | ⟨sys, dia⟩ <;>
    simp only [parseHealthText, hsc, hbp] <;>
    split_ifs <;> rfl

/-- The `diastolic` field of `parseHealthText` is exactly the bounds-filtered
first pressure match, whatever the glucose scan does. -/
theorem parse_diastolic_eq (t : String) :
    (parseHealthText t).diastolic =
      (match bpScan t.data with
       | some (sys, dia) =>
         if 60 ≤ sys ∧ sys ≤ 250 ∧ 40 ≤ dia ∧ dia ≤ 150 then some dia
         else none
       | none => none) := by
  rcases hsc : sugarScan t.data with _ | v <;>
    rcases hbp : bpScan t.data with _ | ⟨sys, dia⟩ <;>
    simp only [parseHealthText, hsc, hbp] <;>
    split_ifs <;> rfl

/-- C2: `parseHealthText` reports a pressure pair `(sys, dia)` iff the first
textual match of the pressure pattern is `(sys, dia)` and
`60 ≤ sys ≤ 250 ∧ 40 ≤ dia ≤ 150`; an out-of-bounds match is discarded
entirely.  Concretely: `"血压300 90"` yields no pressure reading, while
`"血压130 85"` yields systolic 130 and diastolic 85. -/
theorem c2_pressure_bounds :
    (∀ (text : String) (sys dia : Nat),
      ((parseHealthText text).systolic = some sys ∧
       (parseHealthText text).diastolic = some dia) ↔
      (bpScan text.data = some (sys, dia) ∧
       60 ≤ sys ∧ sys ≤ 250 ∧ 40 ≤ dia ∧ dia ≤ 150)) ∧
    (parseHealthText "血压300 90").systolic = none ∧
    (parseHealthText "血压300 90").diastolic = none ∧
    (parseHealthText "血压130 85").systolic = some 130 ∧
    (parseHealthText "血压130 85").diastolic = some 85 := by
  refine ⟨fun text sys dia => ?_, by decide, by decide, by decide, by decide⟩
  rw [parse_systolic_eq, parse_diastolic_eq]
  rcases hbp : bpScan text.data with _ | ⟨s', d'⟩
  · simp
  · by_cases hb : 60 ≤ s' ∧ s' ≤ 250 ∧ 40 ≤ d' ∧ d' ≤ 150
    · simp only [hb, if_true]
      constructor
      · rintro ⟨hs, hd⟩
        rcases Option.some.inj hs with rfl
        rcases Option.some.inj hd with rfl
        exact ⟨rfl, hb⟩
      · rintro ⟨hpair, _⟩
        rcases Prod.mk.injEq .. ▸ Option.some.inj hpair with ⟨rfl, rfl⟩
        exact ⟨rfl, rfl⟩
    · simp only [hb, if_false]
      constructor
      · rintro ⟨hs, _⟩
        exact absurd hs (by simp)
      · rintro ⟨hpair, h60, h250, h40, h150⟩
        rcases Prod.mk.injEq .. ▸ Option.some.inj hpair with ⟨rfl, rfl⟩
        exact absurd ⟨h60, h250, h40, h150⟩ hb

/-- C9: the result of `parseHealthText` contains a `systolic` field iff it
contains a `diastolic` field — a pressure reading is never reported with
only one component. -/
theorem c9_pressure_paired (text : String) :
    ((parseHealthText text).systolic).isSome ↔
    ((parseHealthText text).diastolic).isSome := by
  rw [parse_systolic_eq, parse_diastolic_eq]
  rcases bpScan text.data with _ | ⟨sys, dia⟩
  · simp
  · by_cases hb : 60 ≤ sys ∧ sys ≤ 250 ∧ 40 ≤ dia ∧ dia ≤ 150 <;>
      simp [hb]

/-- C10: when the first textual match of the pressure pattern is out of
bounds, `parseHealthText` reports no pressure at all — later in-bounds
occurrences are never considered (`text.match` returns only the first
match). -/
theorem c10_first_match_rejected (text : String) (sys dia : Nat)
    (hscan : bpScan text.data = some (sys, dia))
    (hout : ¬ (60 ≤ sys ∧ sys ≤ 250 ∧ 40 ≤ dia ∧ dia ≤ 150)) :
    (parseHealthText text).systolic = none ∧
    (parseHealthText text).diastolic = none := by
  rw [parse_systolic_eq, parse_diastolic_eq, hscan]
  simp [hout]

/-- C10 (witness): in `"血压300 90，血压130 85"` the first match `(300, 90)`
is out of bounds, so no pressure is reported even though the later
occurrence `"血压130 85"` would match in bounds on its own. -/
theorem c10_witness :
    ((parseHealthText "血压300 90，血压130 85").systolic = none ∧
     (parseHealthText "血压300 90，血压130 85").diastolic = none) ∧
    bpScan "血压130 85".data = some (130, 85) :=
  ⟨c10_first_match_rejected "血压300 90，血压130 85" 300 90 (by decide)
     (by decide),
   by decide⟩

/-- C5: the two patterns are scanned independently — the glucose field
depends only on the glucose scan and the pressure fields only on the
pressure scan, so absence (or bounds-rejection) of one never blocks the
other — and parsing `"血糖6.4，血压130 85"` reports both readings
(glucose 6.4 = 32/5 and the pair (130, 85)) in one pass. -/
theorem c5_independent_extraction :
    (∀ t₁ t₂ : String, sugarScan t₁.data = sugarScan t₂.data →
      (parseHealthText t₁).bloodSugar = (parseHealthText t₂).bloodSugar) ∧
    (∀ t₁ t₂ : String, bpScan t₁.data = bpScan t₂.data →
      (parseHealthText t₁).systolic = (parseHealthText t₂).systolic ∧
      (parseHealthText t₁).diastolic = (parseHealthText t₂).diastolic) ∧
    (parseHealthText "血糖6.4，血压130 85").bloodSugar = some (32 / 5) ∧
    (parseHealthText "血糖6.4，血压130 85").systolic = some 130 ∧
    (parseHealthText "血糖6.4，血压130 85").diastolic = some 85 := by
  refine ⟨fun t₁ t₂ h => ?_, fun t₁ t₂ h => ?_, ?_, by decide, by decide⟩
  · rw [parse_bloodSugar_eq, parse_bloodSugar_eq, h]
  · rw [parse_systolic_eq, parse_systolic_eq, parse_diastolic_eq,
      parse_diastolic_eq, h]
    exact ⟨rfl, rfl⟩
  · have h64 : (parseHealthText "血糖6.4，血压130 85").bloodSugar =
        some (ratOfParts ['6'] ['4']) := rfl
    rw [h64, ratOfParts, show digitsVal ['6'] = 6 from by decide,
      show digitsVal ['4'] = 4 from by decide]
    norm_num

/-- C5 (witness): dropping the other pattern's text leaves each reading
unchanged — the theorem applied to `"血糖6.4"` vs the combined utterance,
and to `"血压130 85"` vs the combined utterance. -/
theorem c5_witness :
    (parseHealthText "血糖6.4").bloodSugar =
      (parseHealthText "血糖6.4，血压130 85").bloodSugar ∧
    (parseHealthText "血压130 85").systolic =
      (parseHealthText "血糖6.4，血压130 85").systolic :=
  ⟨c5_independent_extraction.1 "血糖6.4" "血糖6.4，血压130 85" rfl,
   (c5_independent_extraction.2.1 "血压130 85" "血糖6.4，血压130 85"
     (by decide)).1⟩

/-- C7 (witness): on a store holding one glucose record of value 32/5 = 6.4
inside the window, the reported average is exactly `toFixed1 (6.4 / 1) = 6.4`. -/
theorem c7_witness :
    (getStats demoStore "a").glucose.average = some (32 / 5) := by
  have hle : (['a'] : List Char) ≤ ['t'] := by decide
  have hfil : getFilteredRecords GlucoseRecord.recordedAt GlucoseRecord.id
      demoStore.glucose "a" = demoStore.glucose := by
    simp [getFilteredRecords, demoStore, hle]
  have h := (c7_getStats_rounding demoStore "a"
    (by rw [hfil]; simp [demoStore])
    (by
      have hfp : getFilteredRecords PressureRecord.recordedAt
          PressureRecord.id demoStore.pressure "a" = demoStore.pressure := by
        simp [getFilteredRecords, demoStore, hle]
      rw [hfp]; simp [demoStore])).1.1
  have harg : ((getFilteredRecords GlucoseRecord.recordedAt GlucoseRecord.id
      demoStore.glucose "a").map (·.value)).foldl (· + ·) 0 /
      (((getFilteredRecords GlucoseRecord.recordedAt GlucoseRecord.id
        demoStore.glucose "a").map (·.value)).length : ℚ) = 32 / 5 := by
    rw [hfil]
    norm_num [demoStore]
  rw [h, harg]
  congr 1
  rw [toFixed1]
  rw [show (32 : ℚ) / 5 * 10 + 1 / 2 = 129 / 2 by norm_num]
  rw [show ⌊(129 : ℚ) / 2⌋ = 64 by norm_num [Int.floor_eq_iff]]
  norm_num
